import Mathlib

/-
  Verification development for the fastcache repository (a cache facade over
  a remote key-value store, source files src/FastCache.ts and src/fast-cache.ts).

  The embedding models:
  - JSON values (JVal) with the serialize / deserialize pair of the source
    (JSON.stringify / JSON.parse wrapped in try-catch returning null);
  - the SHA-1 digest and base64 encoding used by cacheKey;
  - the facade state (store contents, configured key text prepended to keys,
    default TTL) and the scalar and collection operations;
  - the withCache coordinator, with its fire-and-forget persistence and
    eviction steps represented as a list of pending operations that a
    scheduler (runPending) applies after the caller already holds its result;
  - the lease-based lock wrapper of src/fast-cache.ts; the redlock dependency
    is not part of the repository, so its acquire and release primitives are
    modelled from the canonical set-if-absent-with-expiry and
    delete-only-if-token-matches semantics that the specification describes
    for the store collaborator (acquire-with-TTL, safe-release).

  Machine-level conventions: JavaScript numbers inside JSON are modelled as
  integers (the claims never depend on float formatting); JavaScript
  falsiness of numbers and strings is modelled explicitly (zero and the
  empty string are falsy); promises are modelled as deferred outcomes, and
  awaiting or subscribing to one counts as the single invocation of the
  deferred computation.
-/

set_option maxRecDepth 20000

--------------------------------------------------------------------------
-- JSON value model
--------------------------------------------------------------------------

/-- JSON values, the domain of serializable structured data of the source.
Object fields keep insertion order, matching the stable canonicalization
of JSON.stringify. -/
inductive JVal where
  | null
  | bool (b : Bool)
  | num (n : Int)
  | str (s : String)
  | arr (xs : List JVal)
  | obj (fs : List (String × JVal))

/-- Lower-case hexadecimal digit, used by the string escaper. -/
def hexDigit (n : Nat) : Char :=
  "0123456789abcdef".data.getD n '0'

/-- Escape of one character inside a JSON string literal, as JSON.stringify
produces it. -/
def escapeChar (c : Char) : List Char :=
  if c = '"' then ['\\', '"']
  else if c = '\\' then ['\\', '\\']
  else if c = '\n' then ['\\', 'n']
  else if c.toNat = 13 then ['\\', 'r']
  else if c = '\t' then ['\\', 't']
  else if c.toNat = 8 then ['\\', 'b']
  else if c.toNat = 12 then ['\\', 'f']
  else if c.toNat < 32 then ['\\', 'u', '0', '0', hexDigit (c.toNat / 16), hexDigit (c.toNat % 16)]
  else [c]

/-- JSON string literal with surrounding quotes. -/
def escapeString (s : String) : String :=
  "\"" ++ String.mk (s.data.foldr (fun c acc => escapeChar c ++ acc) []) ++ "\""

mutual
/-- Canonical text serialization of a JSON value: JSON.stringify with no
extra whitespace, object fields in insertion order. -/
def stringify : JVal → String
  | .null => "null"
  | .bool true => "true"
  | .bool false => "false"
  | .num n => toString n
  | .str s => escapeString s
  | .arr xs => "[" ++ stringifyList xs ++ "]"
  | .obj fs => "\x7b" ++ stringifyFields fs ++ "\x7d"

/-- Comma-separated serialization of array elements. -/
def stringifyList : List JVal → String
  | [] => ""
  | [x] => stringify x
  | x :: y :: xs => stringify x ++ "," ++ stringifyList (y :: xs)

/-- Comma-separated serialization of object members. -/
def stringifyFields : List (String × JVal) → String
  | [] => ""
  | [(k, v)] => escapeString k ++ ":" ++ stringify v
  | (k, v) :: f :: fs => escapeString k ++ ":" ++ stringify v ++ "," ++ stringifyFields (f :: fs)
end

--------------------------------------------------------------------------
-- JSON parser (JSON.parse model, fuel-based so that it is executable and
-- kernel-reducible)
--------------------------------------------------------------------------

/-- Skip JSON whitespace. -/
def skipWs : List Char → List Char
  | c :: rest => if c = ' ' ∨ c = '\n' ∨ c = '\t' ∨ c.toNat = 13 then skipWs rest else c :: rest
  | [] => []

/-- Decode of one escape character after a backslash inside a JSON string.
Hexadecimal escapes are not modelled; inputs using them fall outside the
parses-successfully fragment of the model. -/
def unescapeChar (c : Char) : Option Char :=
  if c = '"' then some '"'
  else if c = '\\' then some '\\'
  else if c = '/' then some '/'
  else if c = 'b' then some (Char.ofNat 8)
  else if c = 'f' then some (Char.ofNat 12)
  else if c = 'n' then some '\n'
  else if c = 'r' then some (Char.ofNat 13)
  else if c = 't' then some '\t'
  else none

/-- Parse the body of a JSON string after the opening quote. -/
def parseStringBody : Nat → List Char → List Char → Option (String × List Char)
  | 0, _, _ => none
  | _ + 1, _, [] => none
  | f + 1, acc, c :: rest =>
    if c = '"' then some (String.mk acc.reverse, rest)
    else if c = '\\' then
      match rest with
      | e :: rest2 =>
        match unescapeChar e with
        | some ch => parseStringBody f (ch :: acc) rest2
        | none => none
      | [] => none
    else parseStringBody f (c :: acc) rest

/-- Longest digit run at the head of the input. -/
def takeDigits : List Char → List Char × List Char
  | c :: rest =>
    if c.isDigit then
      match takeDigits rest with
      | (ds, r) => (c :: ds, r)
    else ([], c :: rest)
  | [] => ([], [])

/-- Numeric value of a digit run. -/
def digitsVal (ds : List Char) : Nat :=
  ds.foldl (fun a c => a * 10 + (c.toNat - 48)) 0

/-- Parse a natural number literal: nonempty digits, no leading zero, and no
fraction or exponent (JSON floats are outside the integer model). -/
def parseNumNat (cs : List Char) : Option (Nat × List Char) :=
  match takeDigits cs with
  | (ds, r) =>
    if ds = [] then none
    else if 1 < ds.length ∧ ds.getD 0 '0' = '0' then none
    else
      match r with
      | c :: _ => if c = '.' ∨ c = 'e' ∨ c = 'E' then none else some (digitsVal ds, r)
      | [] => some (digitsVal ds, [])

/-- Parse a JSON number literal (optionally negative). -/
def parseNum : List Char → Option (JVal × List Char)
  | '-' :: rest =>
    match parseNumNat rest with
    | some (n, r) => some (JVal.num (-(n : Int)), r)
    | none => none
  | cs =>
    match parseNumNat cs with
    | some (n, r) => some (JVal.num (n : Int), r)
    | none => none

/-- Match a literal suffix such as the tail of null, true, false. -/
def expectLit : List Char → List Char → Option (List Char)
  | [], cs => some cs
  | l :: ls, c :: cs => if c = l then expectLit ls cs else none
  | _ :: _, [] => none

mutual
/-- Parse one JSON value. -/
def parseVal : Nat → List Char → Option (JVal × List Char)
  | 0, _ => none
  | f + 1, cs =>
    match skipWs cs with
    | [] => none
    | c :: rest =>
      if c = 'n' then
        match expectLit "ull".data rest with
        | some r => some (JVal.null, r)
        | none => none
      else if c = 't' then
        match expectLit "rue".data rest with
        | some r => some (JVal.bool true, r)
        | none => none
      else if c = 'f' then
        match expectLit "alse".data rest with
        | some r => some (JVal.bool false, r)
        | none => none
      else if c = '"' then
        match parseStringBody (rest.length + 1) [] rest with
        | some (s, r) => some (JVal.str s, r)
        | none => none
      else if c = '[' then
        match skipWs rest with
        | ']' :: r => some (JVal.arr [], r)
        | cs2 => parseElems f [] cs2
      else if c = '\x7b' then
        match skipWs rest with
        | '\x7d' :: r => some (JVal.obj [], r)
        | cs2 => parseMembers f [] cs2
      else if c = '-' ∨ c.isDigit then parseNum (c :: rest)
      else none

/-- Parse the remaining elements of a nonempty JSON array. -/
def parseElems : Nat → List JVal → List Char → Option (JVal × List Char)
  | 0, _, _ => none
  | f + 1, acc, cs =>
    match parseVal f cs with
    | some (v, r) =>
      match skipWs r with
      | ',' :: r2 => parseElems f (acc ++ [v]) r2
      | ']' :: r2 => some (JVal.arr (acc ++ [v]), r2)
      | _ => none
    | none => none

/-- Parse the remaining members of a nonempty JSON object. -/
def parseMembers : Nat → List (String × JVal) → List Char → Option (JVal × List Char)
  | 0, _, _ => none
  | f + 1, acc, cs =>
    match skipWs cs with
    | '"' :: r =>
      match parseStringBody (r.length + 1) [] r with
      | some (k, r2) =>
        match skipWs r2 with
        | ':' :: r3 =>
          match parseVal f r3 with
          | some (v, r4) =>
            match skipWs r4 with
            | ',' :: r5 => parseMembers f (acc ++ [(k, v)]) r5
            | '\x7d' :: r5 => some (JVal.obj (acc ++ [(k, v)]), r5)
            | _ => none
          | none => none
        | _ => none
      | none => none
    | _ => none
end

/-- JSON.parse model: parse one value and require only whitespace after it. -/
def parseJson (s : String) : Option JVal :=
  match parseVal (s.length + 1) s.data with
  | some (v, r) => if skipWs r = [] then some v else none
  | none => none

example : stringify (JVal.num 1) = "1" := rfl

example : stringify (JVal.obj [("a", JVal.num 1)]) = "\x7b\"a\":1\x7d" := rfl

example : stringify (JVal.arr [JVal.num 1, JVal.bool true, JVal.str "x"]) = "[1,true,\"x\"]" := rfl

example : parseJson "1" = some (JVal.num 1) := rfl

example : parseJson "\x7b\"a\":[1,null]\x7d" = some (JVal.obj [("a", JVal.arr [JVal.num 1, JVal.null])]) := rfl

example : parseJson "\x7b" = none := rfl

example : parseJson "" = none := rfl

example : parseJson "-12" = some (JVal.num (-12)) := rfl

--------------------------------------------------------------------------
-- Error model, serialize / deserialize of the source
--------------------------------------------------------------------------

/-- Errors observable in the modelled universe. The source itself never
constructs serializationError or lockOwnershipError; they belong to the
error taxonomy of the specification and appear here so that statements
about them can be made. typeError models the generic runtime TypeError of
the JavaScript platform, lockError the error thrown by the lock primitive
on contention. -/
inductive JSError where
  | typeError (msg : String)
  | lockError (msg : String)
  | lockOwnershipError
  | serializationError
deriving DecidableEq

/-- Inputs handed to serialize and cacheKey: either a JSON value or a value
on which JSON.stringify throws (for example a cyclic structure). -/
inductive JSInput where
  | val (v : JVal)
  | cyclic

/-- JSON.stringify: canonical text for a JSON value, a thrown TypeError for
a cyclic structure. -/
def jsonStringifyJs : JSInput → Except JSError String
  | .val v => .ok (stringify v)
  | .cyclic => .error (.typeError "Converting circular structure to JSON")

/-- The serialize method of the source: JSON.stringify wrapped in try-catch,
returning null (modelled as none) when stringification throws. -/
def serialize (o : JSInput) : Option String :=
  match jsonStringifyJs o with
  | .ok s => some s
  | .error _ => none

/-- The deserialize method of the source: JSON.parse wrapped in try-catch,
returning null when parsing throws. -/
def deserialize (s : String) : JVal :=
  (parseJson s).getD JVal.null

--------------------------------------------------------------------------
-- SHA-1 and base64, the digest pipeline of cacheKey
--------------------------------------------------------------------------

/-- Modulus of 32-bit words. -/
def M32 : Nat := 4294967296

/-- Left rotation of a 32-bit word. -/
def rotl (n x : Nat) : Nat := ((x <<< n) ||| (x >>> (32 - n))) % M32

/-- Big-endian bytes of a 32-bit word. -/
def beBytes4 (n : Nat) : List Nat :=
  [(n >>> 24) % 256, (n >>> 16) % 256, (n >>> 8) % 256, n % 256]

/-- Big-endian bytes of a 64-bit length field. -/
def beBytes8 (n : Nat) : List Nat :=
  [(n >>> 56) % 256, (n >>> 48) % 256, (n >>> 40) % 256, (n >>> 32) % 256,
   (n >>> 24) % 256, (n >>> 16) % 256, (n >>> 8) % 256, n % 256]

/-- Big-endian assembly of bytes into 32-bit words. -/
def bytesToWords : List Nat → List Nat
  | b0 :: b1 :: b2 :: b3 :: rest => (b0 * 16777216 + b1 * 65536 + b2 * 256 + b3) :: bytesToWords rest
  | _ => []

/-- SHA-1 message padding. -/
def sha1Pad (msg : List Nat) : List Nat :=
  msg ++ [128] ++ List.replicate ((119 - msg.length % 64) % 64) 0 ++ beBytes8 (8 * msg.length)

/-- One step of the SHA-1 message schedule expansion. -/
def sha1ExpandStep (w : List Nat) : List Nat :=
  w ++ [rotl 1 (Nat.xor (Nat.xor (w.getD (w.length - 3) 0) (w.getD (w.length - 8) 0))
                (Nat.xor (w.getD (w.length - 14) 0) (w.getD (w.length - 16) 0)))]

/-- Message schedule expansion from 16 to 80 words. -/
def sha1Expand : Nat → List Nat → List Nat
  | 0, w => w
  | k + 1, w => sha1Expand k (sha1ExpandStep w)

/-- SHA-1 round function. -/
def sha1F (t b c d : Nat) : Nat :=
  if t < 20 then Nat.lor (Nat.land b c) (Nat.land (Nat.xor b 4294967295) d)
  else if t < 40 then Nat.xor (Nat.xor b c) d
  else if t < 60 then Nat.lor (Nat.lor (Nat.land b c) (Nat.land b d)) (Nat.land c d)
  else Nat.xor (Nat.xor b c) d

/-- SHA-1 round constants. -/
def sha1K (t : Nat) : Nat :=
  if t < 20 then 1518500249
  else if t < 40 then 1859775393
  else if t < 60 then 2400959708
  else 3395469782

/-- One SHA-1 round on the five-word state. -/
def sha1Step (w : List Nat) (st : Nat × Nat × Nat × Nat × Nat) (t : Nat) : Nat × Nat × Nat × Nat × Nat :=
  match st with
  | (a, b, c, d, e) =>
    ((rotl 5 a + sha1F t b c d + e + sha1K t + w.getD t 0) % M32, a, rotl 30 b, c, d)

/-- Compression of one 64-byte block. -/
def sha1Block (h : Nat × Nat × Nat × Nat × Nat) (block : List Nat) : Nat × Nat × Nat × Nat × Nat :=
  let w := sha1Expand 64 (bytesToWords block)
  match h, (List.range 80).foldl (sha1Step w) h with
  | (h0, h1, h2, h3, h4), (a, b, c, d, e) =>
    ((h0 + a) % M32, (h1 + b) % M32, (h2 + c) % M32, (h3 + d) % M32, (h4 + e) % M32)

/-- Fold of the compression function over all blocks (fuel-based). -/
def sha1Chunks : Nat → (Nat × Nat × Nat × Nat × Nat) → List Nat → Nat × Nat × Nat × Nat × Nat
  | 0, h, _ => h
  | f + 1, h, l => if l = [] then h else sha1Chunks f (sha1Block h (l.take 64)) (l.drop 64)

/-- SHA-1 digest: 20 bytes from a byte message. -/
def sha1 (msg : List Nat) : List Nat :=
  let p := sha1Pad msg
  match sha1Chunks (p.length + 1) (1732584193, 4023233417, 2562383102, 271733878, 3285377520) p with
  | (h0, h1, h2, h3, h4) => beBytes4 h0 ++ beBytes4 h1 ++ beBytes4 h2 ++ beBytes4 h3 ++ beBytes4 h4

/-- Standard base64 alphabet lookup. -/
def b64Char (n : Nat) : Char :=
  "ABCDEFGHIJKLMNOPQRSTUVWXYZabcdefghijklmnopqrstuvwxyz0123456789+/".data.getD n 'A'

/-- Base64 encoding with padding, as digest produces it. -/
def base64Encode : List Nat → String
  | [] => ""
  | [b0] => String.mk [b64Char (b0 >>> 2), b64Char ((b0 % 4) <<< 4)] ++ "=="
  | [b0, b1] =>
    String.mk [b64Char (b0 >>> 2), b64Char (Nat.lor ((b0 % 4) <<< 4) (b1 >>> 4)),
               b64Char ((b1 % 16) <<< 2)] ++ "="
  | b0 :: b1 :: b2 :: rest =>
    String.mk [b64Char (b0 >>> 2), b64Char (Nat.lor ((b0 % 4) <<< 4) (b1 >>> 4)),
               b64Char (Nat.lor ((b1 % 16) <<< 2) (b2 >>> 6)), b64Char (b2 % 64)] ++
    base64Encode rest

/-- UTF-8 encoding of one character. -/
def utf8EncodeCharNat (c : Char) : List Nat :=
  let n := c.toNat
  if n < 128 then [n]
  else if n < 2048 then [192 + n / 64, 128 + n % 64]
  else if n < 65536 then [224 + n / 4096, 128 + (n / 64) % 64, 128 + n % 64]
  else [240 + n / 262144, 128 + (n / 4096) % 64, 128 + (n / 64) % 64, 128 + n % 64]

/-- UTF-8 bytes of a string. -/
def utf8Bytes (s : String) : List Nat :=
  s.data.foldr (fun c acc => utf8EncodeCharNat c ++ acc) []

/-- Message of the TypeError thrown by hash update when handed null instead
of a string or buffer. -/
def updateNullMsg : String :=
  "The data argument must be of type string or an instance of Buffer, TypedArray, or DataView"

/-- State of a Node crypto hash object: the accumulated input bytes. -/
structure HashObj where
  data : List Nat

/-- createHash with the sha1 algorithm: an empty accumulator. -/
def createHashSha1 : HashObj := ⟨[]⟩

/-- The update method: appends the UTF-8 bytes of a string, throws TypeError
when handed null. -/
def HashObj.update (h : HashObj) (d : Option String) : Except JSError HashObj :=
  match d with
  | some s => .ok ⟨h.data ++ utf8Bytes s⟩
  | none => .error (.typeError updateNullMsg)

/-- The digest method with base64 output. -/
def HashObj.digestBase64 (h : HashObj) : String := base64Encode (sha1 h.data)

/-- The cacheKey method of the source:
createHash of sha1, update with serialize of the input, digest as base64. -/
def cacheKey (o : JSInput) : Except JSError String :=
  (createHashSha1.update (serialize o)).map HashObj.digestBase64

example : sha1 (utf8Bytes "abc") =
    [169, 153, 62, 54, 71, 6, 129, 106, 186, 62, 37, 113, 120, 80, 194, 108, 156, 208, 216, 157] := by
  decide

example : base64Encode [169, 153] = "qZk=" := rfl

--------------------------------------------------------------------------
-- Cache facade state and operations
--------------------------------------------------------------------------

/-- One stored scalar entry: the value together with its expiry (EX option of
the SET command); none models a write without expiry, which the facade never
performs. -/
structure Entry where
  value : String
  ex : Option Nat
deriving DecidableEq

/-- Pointwise update of a keyed map. -/
def updateFn {α : Type} (f : String → α) (k : String) (v : α) : String → α :=
  fun x => if x = k then v else f x

/-- The keyspaces of the store collaborator: scalar entries, lists, hashes and
sets. Entries present in the model are the unexpired ones; the store expires
entries on its own clock, which the claims under study never exercise on the
read path. -/
structure StoreState where
  kv : String → Option Entry
  lists : String → List String
  hashes : String → List (String × String)
  smem : String → List String

/-- The store with no entries. -/
def emptyStore : StoreState :=
  ⟨fun _ => none, fun _ => [], fun _ => [], fun _ => []⟩

/-- Recognized construction options of the facade. -/
structure FastCacheOpts where
  pfx : Option String
  ttl : Option Nat

/-- JavaScript or-default on numbers: zero (and absence) is falsy. -/
def jsOrNat (x : Option Nat) (d : Nat) : Nat :=
  match x with
  | some n => if n = 0 then d else n
  | none => d

/-- JavaScript or-default on strings: the empty string (and absence) is falsy. -/
def jsOrStr (x : Option String) (d : String) : String :=
  match x with
  | some s => if s = "" then d else s
  | none => d

/-- Facade state: the store connection plus the two configuration fields the
init method assigns. pfx embeds the field the
source stores the configured key text in (the original field name is a
reserved word here). -/
structure FastCacheState where
  store : StoreState
  pfx : String
  ttl : Nat

/-- The init method: records the configured key text (defaulting to the empty
string) and the default TTL (opts.ttl or 60 * 5 seconds). -/
def FastCache.init (opts : FastCacheOpts) (st : StoreState) : FastCacheState :=
  { store := st, pfx := jsOrStr opts.pfx "", ttl := jsOrNat opts.ttl (60 * 5) }

/-- The set method: SET key value EX (ex or the default TTL). The key is used
verbatim. -/
def FastCache.set (c : FastCacheState) (key value : String) (ex : Option Nat) : FastCacheState :=
  { c with store := { c.store with
      kv := updateFn c.store.kv key (some ⟨value, some (jsOrNat ex c.ttl)⟩) } }

/-- The get method: GET key, null when absent. -/
def FastCache.get (c : FastCacheState) (key : String) : Option String :=
  (c.store.kv key).map Entry.value

/-- The remove method: DEL key. -/
def FastCache.remove (c : FastCacheState) (key : String) : FastCacheState :=
  { c with store := { c.store with kv := updateFn c.store.kv key none } }

/-- The setAll method: a MULTI batch of SET key value EX ttl commands, one per
entry of the object, each with the default TTL (the same command the set
method issues when no explicit expiry is given). -/
def FastCache.setAll (c : FastCacheState) (obj : List (String × String)) : FastCacheState :=
  obj.foldl (fun acc kv => FastCache.set acc kv.1 kv.2 none) c

/-- The push operation of the list accessor: RPUSH on the captured key. -/
def FastCache.listPush (c : FastCacheState) (key v : String) : FastCacheState :=
  { c with store := { c.store with lists := updateFn c.store.lists key (c.store.lists key ++ [v]) } }

/-- Assoc update of a hash keyspace entry. -/
def assocPut : List (String × String) → String → String → List (String × String)
  | [], f, v => [(f, v)]
  | (g, w) :: t, f, v => if g = f then (f, v) :: t else (g, w) :: assocPut t f v

/-- The set operation of the map accessor: HSET on the captured key. -/
def FastCache.mapSet (c : FastCacheState) (key field v : String) : FastCacheState :=
  { c with store := { c.store with hashes := updateFn c.store.hashes key (assocPut (c.store.hashes key) field v) } }

/-- SADD on a member list. -/
def saddList (l : List String) (v : String) : List String :=
  if v ∈ l then l else l ++ [v]

/-- The add operation of the set accessor: SADD on the captured key. -/
def FastCache.setAdd (c : FastCacheState) (key v : String) : FastCacheState :=
  { c with store := { c.store with smem := updateFn c.store.smem key (saddList (c.store.smem key) v) } }

--------------------------------------------------------------------------
-- withCache coordinator
--------------------------------------------------------------------------

/-- JavaScript truthiness of a nullable string: null and the empty string are
falsy. -/
def jsTruthy : Option String → Bool
  | none => false
  | some s => if s = "" then false else true

/-- Operations the coordinator schedules with setImmediate, to run after the
caller already received its result: persistence of a computed value, or
eviction of the key after a failed computation. -/
inductive PendingOp where
  | persist (key : String) (value : String)
  | evict (key : String)
deriving DecidableEq

/-- Caller-visible outcome of withCache: the settled result, the number of
times the deferred computation was awaited on the taken path, and the
operations scheduled to run on later turns. -/
structure WithCacheOut (ε : Type) where
  result : Except ε JVal
  invocations : Nat
  pending : List PendingOp

/-- The withCache method. The deferred computation is a thunk whose single
forcing models awaiting the executor promise; the result field is settled
before any pending operation runs, so the caller never waits on persistence
or cleanup. A truthy cached string is deserialized and returned; otherwise
the executor outcome decides between scheduling a persistence write of the
serialized value (serialize of a cycle-free JSON value always succeeds and
equals stringify) and scheduling an eviction before rethrowing the original
failure unchanged. -/
def withCache {ε : Type} (c : FastCacheState) (key : String)
    (executor : Unit → Except ε JVal) : WithCacheOut ε :=
  let cached := FastCache.get c key
  if jsTruthy cached then
    { result := .ok (deserialize (cached.getD "")), invocations := 0, pending := [] }
  else
    match executor () with
    | .ok v => { result := .ok v, invocations := 1, pending := [.persist key (stringify v)] }
    | .error e => { result := .error e, invocations := 1, pending := [.evict key] }

/-- Effect of one pending operation on the facade state: the setImmediate
callback calls set (with the default TTL) or remove. -/
def runOp (c : FastCacheState) : PendingOp → FastCacheState
  | .persist k v => FastCache.set c k v none
  | .evict k => FastCache.remove c k

/-- Scheduler for pending operations. Each boolean says whether the store
round-trip of the corresponding operation succeeds; a failed operation is
only observed by the catch-and-log handler of the callback and leaves the
state unchanged, matching the fire-and-forget design. Missing flags default
to success. -/
def runPending : FastCacheState → List PendingOp → List Bool → FastCacheState
  | c, [], _ => c
  | c, op :: ops, [] => runPending (runOp c op) ops []
  | c, op :: ops, ok :: oks => runPending (if ok then runOp c op else c) ops oks

--------------------------------------------------------------------------
-- Lock manager of src/fast-cache.ts
--------------------------------------------------------------------------

/-- A lease handle as the lock primitive returns it: the resource name and
the ownership token stored under it. -/
structure Lease where
  resource : String
  value : Nat
deriving DecidableEq

/-- Shared lock keyspace: per resource, the stored token and its absolute
expiry time in milliseconds. -/
structure LockStore where
  locks : String → Option (Nat × Nat)

/-- Token currently held at a resource, if the lease has not expired. -/
def lockValid (s : LockStore) (now : Nat) (name : String) : Option Nat :=
  match s.locks name with
  | some (tok, exp) => if now < exp then some tok else none
  | none => none

/-- Modelled from the spec: the acquire-with-TTL primitive of the store
collaborator (the redlock dependency, whose source is not part of this
repository): an atomic set-if-absent of a fresh token with expiry; no lease
is granted while an unexpired one exists. -/
def redlockAcquire (s : LockStore) (now : Nat) (res : String) (token ttlMs : Nat) :
    Option (Lease × LockStore) :=
  match lockValid s now res with
  | some _ => none
  | none => some (⟨res, token⟩, ⟨updateFn s.locks res (some (token, now + ttlMs))⟩)

/-- Modelled from the spec: the safe-release primitive of the store
collaborator: delete the lease only when the stored token matches the one of
the releasing handle, returning the number of keys deleted; a mismatch or an
expired lease leaves the store unchanged and reports zero without raising. -/
def redlockRelease (s : LockStore) (now : Nat) (l : Lease) : Nat × LockStore :=
  match lockValid s now l.resource with
  | some tok => if tok = l.value then (1, ⟨updateFn s.locks l.resource none⟩) else (0, s)
  | none => (0, s)

/-- State of one facade instance using the lock feature: the shared lock
keyspace, the lease duration turnOnLock fixes at 1000 ms, and the single
mutable field the source stores the last acquired lease in. -/
structure LockMgrState where
  lstore : LockStore
  redlockttl : Nat
  locker : Option Lease

/-- The turnOnLock method: fixes the lease duration at 1000 ms. -/
def turnOnLock (s : LockMgrState) : LockMgrState := { s with redlockttl := 1000 }

/-- The lock method: acquires a lease on the key via the primitive, stores it
in the mutable field and returns it; contention surfaces as the lock error
of the primitive after its retries are exhausted. The token argument stands
for the random value the primitive generates. -/
def FastCache.lock (s : LockMgrState) (now : Nat) (key : String) (token : Nat) :
    Except JSError (Lease × LockMgrState) :=
  match redlockAcquire s.lstore now key token s.redlockttl with
  | some (l, st) => .ok (l, { s with lstore := st, locker := some l })
  | none => .error (.lockError "Exceeded predefined attempts to lock the resource")

/-- The unlock method: awaits release of the lease held in the mutable field
and then returns true unconditionally; with no lease ever acquired the field
is undefined and the method call throws a TypeError. -/
def FastCache.unlock (s : LockMgrState) (now : Nat) : Except JSError (Bool × LockMgrState) :=
  match s.locker with
  | none => .error (.typeError "Cannot read properties of undefined")
  | some l => .ok (true, { s with lstore := (redlockRelease s.lstore now l).2 })

/-- Whether the handle still owns an unexpired lease at its resource. -/
def leaseHeldBy (s : LockStore) (now : Nat) (l : Lease) : Bool :=
  match lockValid s now l.resource with
  | some tok => if tok = l.value then true else false
  | none => false

--------------------------------------------------------------------------
-- Concrete fixtures for witnesses and counterexamples
--------------------------------------------------------------------------

/-- Facade over an empty store with default configuration. -/
def emptyState : FastCacheState := FastCache.init ⟨none, none⟩ emptyStore

/-- Facade whose store holds the valid serialized entry 1 at key k. -/
def hitState : FastCacheState :=
  { emptyState with store := { emptyStore with kv := updateFn emptyStore.kv "k" (some ⟨"1", some 300⟩) } }

/-- Facade whose store holds a corrupt (unparseable) entry at key k. -/
def corruptState : FastCacheState :=
  { emptyState with store := { emptyStore with kv := updateFn emptyStore.kv "k" (some ⟨"\x7b", some 300⟩) } }

/-- Facade whose store holds the empty string at key k. -/
def emptyEntryState : FastCacheState :=
  { emptyState with store := { emptyStore with kv := updateFn emptyStore.kv "k" (some ⟨"", some 300⟩) } }

/-- Deferred computation resolving with the number 7. -/
def exec7 : Unit → Except Nat JVal := fun _ => Except.ok (JVal.num 7)

/-- Deferred computation resolving with the number 42. -/
def exec42 : Unit → Except Nat JVal := fun _ => Except.ok (JVal.num 42)

/-- Deferred computation resolving with the number 5. -/
def exec5 : Unit → Except Nat JVal := fun _ => Except.ok (JVal.num 5)

/-- Deferred computation failing with error code 9. -/
def execFail9 : Unit → Except Nat JVal := fun _ => Except.error 9

--------------------------------------------------------------------------
-- Claims C1 to C4 and C10: the withCache coordinator
--------------------------------------------------------------------------

/-- C1: when the store holds no entry at the key and the deferred computation
resolves successfully, withCache awaits the computation exactly once, returns
its resolved value (the pending list shows persistence is only scheduled, so
the caller does not wait on it), schedules an asynchronous write of the
serialized value under the key, and once that write runs the store holds the
persisted value under the key with the configured default TTL, so a
subsequent read of the key returns the persisted value. -/
theorem claim_C1_computeOrFetch_miss {ε : Type} (c : FastCacheState) (key : String)
    (executor : Unit → Except ε JVal) (v : JVal)
    (hmiss : c.store.kv key = none) (hok : executor () = Except.ok v) :
    (withCache c key executor).result = Except.ok v ∧
    (withCache c key executor).invocations = 1 ∧
    (withCache c key executor).pending = [PendingOp.persist key (stringify v)] ∧
    (runPending c (withCache c key executor).pending [true]).store.kv key
      = some ⟨stringify v, some c.ttl⟩ ∧
    FastCache.get (runPending c (withCache c key executor).pending [true]) key
      = some (stringify v) := by
  simp [withCache, FastCache.get, FastCache.set, jsTruthy, hmiss, hok,
    runPending, runOp, updateFn, jsOrNat]

/-- C1 witness: the theorem instantiated on an empty store, key k and a
computation resolving with 7; the persisted serialization is 7 with the
default TTL of 300 seconds. -/
theorem claim_C1_witness :
    (emptyState.store.kv "k" = none ∧ exec7 () = Except.ok (JVal.num 7)) ∧
    (withCache emptyState "k" exec7).result = Except.ok (JVal.num 7) ∧
    (runPending emptyState (withCache emptyState "k" exec7).pending [true]).store.kv "k"
      = some ⟨"7", some 300⟩ := by
  have h := claim_C1_computeOrFetch_miss emptyState "k" exec7 (JVal.num 7) rfl rfl
  exact ⟨⟨rfl, rfl⟩, h.1, by simpa using h.2.2.2.1⟩

/-- C2: when the store holds a valid entry at the key (a nonempty serialized
string that parses back), withCache never awaits the deferred computation and
returns the deserialized cached value, scheduling nothing. -/
theorem claim_C2_computeOrFetch_hit {ε : Type} (c : FastCacheState) (key s : String)
    (e : Option Nat) (executor : Unit → Except ε JVal) (v : JVal)
    (hent : c.store.kv key = some ⟨s, e⟩) (hne : s ≠ "") (hparse : parseJson s = some v) :
    (withCache c key executor).result = Except.ok v ∧
    (withCache c key executor).invocations = 0 ∧
    (withCache c key executor).pending = [] := by
  simp [withCache, FastCache.get, jsTruthy, hent, hne, deserialize, hparse]

/-- C2 witness: the theorem instantiated on a store holding the valid entry 1
at key k; the cached value is returned and the computation is never awaited. -/
theorem claim_C2_witness :
    (hitState.store.kv "k" = some ⟨"1", some 300⟩ ∧ ("1" : String) ≠ "" ∧
      parseJson "1" = some (JVal.num 1)) ∧
    (withCache hitState "k" exec42).result = Except.ok (JVal.num 1) ∧
    (withCache hitState "k" exec42).invocations = 0 ∧
    (withCache hitState "k" exec42).pending = [] := by
  have h := claim_C2_computeOrFetch_hit hitState "k" "1" (some 300) exec42 (JVal.num 1)
    rfl (by decide) rfl
  exact ⟨⟨rfl, by decide, rfl⟩, h⟩

/-- C3 counterexample: the claim quantifies over every key, but when the
store already holds a valid entry at the key, a failing computation does not
propagate its failure at all: withCache returns the cached value and the
entry survives. Input: the store holds entry 1 at key k and the computation
fails with error 9. -/
theorem claim_C3_counterexample :
    (withCache hitState "k" execFail9).result = Except.ok (JVal.num 1) ∧
    (withCache hitState "k" execFail9).result ≠ Except.error 9 ∧
    (runPending hitState (withCache hitState "k" execFail9).pending [true]).store.kv "k"
      ≠ none := by
  refine ⟨rfl, ?_, ?_⟩
  · rw [show (withCache hitState "k" execFail9).result = Except.ok (JVal.num 1) from rfl]
    exact fun h => nomatch h
  · rw [show (runPending hitState (withCache hitState "k" execFail9).pending [true]).store.kv "k"
        = some ⟨"1", some 300⟩ from rfl]
    exact fun h => nomatch h

/-- C3 amended: for every key at which the store holds no entry, when the
deferred computation fails, withCache re-raises the original failure value
unchanged (the result is settled before any cleanup runs), schedules an
asynchronous removal of the key, never escalates a failure of that cleanup
(a failed removal only leaves the state unchanged), and afterwards no entry
exists at the key whether or not the cleanup round-trip succeeded. -/
theorem claim_C3_computeOrFetch_failure {ε : Type} (c : FastCacheState) (key : String)
    (executor : Unit → Except ε JVal) (e : ε)
    (hmiss : c.store.kv key = none) (herr : executor () = Except.error e) :
    (withCache c key executor).result = Except.error e ∧
    (withCache c key executor).invocations = 1 ∧
    (withCache c key executor).pending = [PendingOp.evict key] ∧
    (∀ ok : Bool, (runPending c (withCache c key executor).pending [ok]).store.kv key = none) := by
  refine ⟨?_, ?_, ?_, ?_⟩ <;>
    simp [withCache, FastCache.get, FastCache.remove, jsTruthy, hmiss, herr,
      runPending, runOp, updateFn]

/-- C3 witness: the amended theorem instantiated on an empty store, key k and
a computation failing with error 9; the failure is returned unchanged and the
key stays absent whether the scheduled removal succeeds or fails. -/
theorem claim_C3_witness :
    (emptyState.store.kv "k" = none ∧ execFail9 () = Except.error 9) ∧
    (withCache emptyState "k" execFail9).result = Except.error 9 ∧
    (runPending emptyState (withCache emptyState "k" execFail9).pending [true]).store.kv "k"
      = none ∧
    (runPending emptyState (withCache emptyState "k" execFail9).pending [false]).store.kv "k"
      = none := by
  have h := claim_C3_computeOrFetch_failure emptyState "k" execFail9 9 rfl rfl
  exact ⟨⟨rfl, rfl⟩, h.1, h.2.2.2 true, h.2.2.2 false⟩

/-- C4: evaluation of the code at the failing input. The store holds the
corrupt (unparseable) entry at key k; withCache silently returns null as if
it were a cached value, never awaits the computation, and schedules neither
an invalidation nor a persistence write, contradicting the claimed policy of
treating a corrupt entry as a miss. -/
theorem claim_C4_corrupt_entry_eval :
    (withCache corruptState "k" exec42).result = Except.ok JVal.null ∧
    (withCache corruptState "k" exec42).invocations = 0 ∧
    (withCache corruptState "k" exec42).pending = [] ∧
    parseJson "\x7b" = none :=
  ⟨rfl, rfl, rfl, rfl⟩

/-- C10: an entry whose stored string is empty is treated as a cache miss (the
empty string is falsy): the deferred computation is awaited once, its
resolved value is returned, and a persistence write of the serialized value
under the key with the default TTL is scheduled in place of the empty entry. -/
theorem claim_C10_empty_entry_miss {ε : Type} (c : FastCacheState) (key : String)
    (executor : Unit → Except ε JVal) (e : Option Nat) (v : JVal)
    (hent : c.store.kv key = some ⟨"", e⟩) (hok : executor () = Except.ok v) :
    (withCache c key executor).result = Except.ok v ∧
    (withCache c key executor).invocations = 1 ∧
    (withCache c key executor).pending = [PendingOp.persist key (stringify v)] ∧
    (runPending c (withCache c key executor).pending [true]).store.kv key
      = some ⟨stringify v, some c.ttl⟩ := by
  simp [withCache, FastCache.get, FastCache.set, jsTruthy, hent, hok,
    runPending, runOp, updateFn, jsOrNat]

--------------------------------------------------------------------------
-- Claim C7: the lock release path
--------------------------------------------------------------------------

/-- Lock keyspace after a second holder re-acquired resource L with token 2,
valid until 3000 ms. -/
def reacquiredLocks : LockStore := ⟨updateFn (fun _ => none) "L" (some (2, 3000))⟩

/-- Instance of the first holder, whose lease (token 1) on L expired before
the re-acquisition; its mutable field still carries the stale handle. -/
def staleHolder : LockMgrState :=
  { lstore := reacquiredLocks, redlockttl := 1000, locker := some ⟨"L", 1⟩ }

/-- Lock keyspace holding resource L with token 5, valid until 1000 ms. -/
def heldLocks : LockStore := ⟨updateFn (fun _ => none) "L" (some (5, 1000))⟩

/-- Instance holding the live lease with token 5 on L. -/
def properHolder : LockMgrState :=
  { lstore := heldLocks, redlockttl := 1000, locker := some ⟨"L", 5⟩ }

/-- C7 counterexample: a release attempted without a valid matching token
does not signal LockOwnershipError: after its lease on L expired and a
second holder re-acquired L with token 2, the first holder releases at time
2500 and the call resolves with true and leaves the whole state (including
the second lease) unchanged. -/
theorem claim_C7_counterexample :
    FastCache.unlock staleHolder 2500 = Except.ok (true, staleHolder) ∧
    FastCache.unlock staleHolder 2500 ≠ Except.error JSError.lockOwnershipError ∧
    staleHolder.lstore.locks "L" = some (2, 3000) := by
  refine ⟨rfl, ?_, rfl⟩
  rw [show FastCache.unlock staleHolder 2500 = Except.ok (true, staleHolder) from rfl]
  exact fun h => nomatch h

/-- Observable store effect of the release primitive, split on whether the
releasing handle still owns the stored token. -/
theorem redlockRelease_snd (s : LockStore) (now : Nat) (l : Lease) :
    (redlockRelease s now l).2 =
      cond (leaseHeldBy s now l) ⟨updateFn s.locks l.resource none⟩ s := by
  unfold redlockRelease leaseHeldBy
  cases hv : lockValid s now l.resource with
  | none => rfl
  | some tok => by_cases ht : tok = l.value <;> simp [ht]

/-- C7 amended: release goes through the check-and-delete primitive: it
deletes the lease only when the releasing handle still owns the stored token
(so it never deletes a lease acquired by a different holder after expiry and
re-acquisition, whose store it leaves untouched); a release without a valid
matching token resolves with true rather than signalling LockOwnershipError,
which the call indeed never signals. -/
theorem claim_C7_release_check_and_delete (s : LockMgrState) (now : Nat) (l : Lease)
    (hl : s.locker = some l) :
    FastCache.unlock s now = Except.ok (true,
      cond (leaseHeldBy s.lstore now l)
        { s with lstore := ⟨updateFn s.lstore.locks l.resource none⟩ } s) ∧
    FastCache.unlock s now ≠ Except.error JSError.lockOwnershipError := by
  constructor
  · simp only [FastCache.unlock, hl, redlockRelease_snd]
    cases leaseHeldBy s.lstore now l with
    | true => rfl
    | false => rw [← hl]; exact rfl
  · simp [FastCache.unlock, hl]

/-- C7 witness: the amended theorem instantiated on the holder of the live
lease with token 5 on L releasing at time 500: the matching lease is deleted
and no LockOwnershipError is signalled. -/
theorem claim_C7_witness :
    properHolder.locker = some ⟨"L", 5⟩ ∧
    FastCache.unlock properHolder 500 = Except.ok (true,
      { properHolder with lstore := ⟨updateFn properHolder.lstore.locks "L" none⟩ }) ∧
    FastCache.unlock properHolder 500 ≠ Except.error JSError.lockOwnershipError := by
  have h := claim_C7_release_check_and_delete properHolder 500 ⟨"L", 5⟩ rfl
  exact ⟨rfl, h.1, h.2⟩

--------------------------------------------------------------------------
-- Claims C8 and C9: the scalar write paths and the configured key text
--------------------------------------------------------------------------

/-- Facade initialized with the key text p: configured. -/
def keyTextState : FastCacheState := FastCache.init ⟨some "p:", none⟩ emptyStore

/-- C8 counterexample: the configured key text is stored by init but a write
lands at the caller-supplied key itself: nothing is stored at the key formed
by prepending the configured text. -/
theorem claim_C8_counterexample :
    keyTextState.pfx = "p:" ∧
    (FastCache.set keyTextState "k" "v" none).store.kv ("p:" ++ "k") = none ∧
    (FastCache.set keyTextState "k" "v" none).store.kv "k" = some ⟨"v", some 300⟩ :=
  ⟨rfl, rfl, rfl⟩

/-- C8 amended: the configured key text is accepted and stored by init but
never applied: every key-based operation (set, get, remove, and the list,
map and set accessors) addresses the store with the caller-supplied key
unchanged, and the store effect of set and remove is independent of the
configured text. -/
theorem claim_C8_key_text_never_applied (c : FastCacheState) (k v f w p : String)
    (ex : Option Nat) :
    (FastCache.set c k v ex).store.kv k = some ⟨v, some (jsOrNat ex c.ttl)⟩ ∧
    (FastCache.set { c with pfx := p } k v ex).store.kv = (FastCache.set c k v ex).store.kv ∧
    FastCache.get c k = Option.map Entry.value (c.store.kv k) ∧
    (FastCache.remove c k).store.kv k = none ∧
    (FastCache.remove { c with pfx := p } k).store.kv = (FastCache.remove c k).store.kv ∧
    (FastCache.listPush c k v).store.lists k = c.store.lists k ++ [v] ∧
    (FastCache.mapSet c k f w).store.hashes k = assocPut (c.store.hashes k) f w ∧
    (FastCache.setAdd c k v).store.smem k = saddList (c.store.smem k) v := by
  refine ⟨?_, rfl, rfl, ?_, rfl, ?_, ?_, ?_⟩ <;>
    simp [FastCache.set, FastCache.remove, FastCache.listPush, FastCache.mapSet,
      FastCache.setAdd, updateFn]

/-- Unfolding of setAll on a nonempty object. -/
theorem setAll_cons (c : FastCacheState) (kv : String × String) (t : List (String × String)) :
    FastCache.setAll c (kv :: t) = FastCache.setAll (FastCache.set c kv.1 kv.2 none) t := rfl

/-- Every key is either untouched by setAll or holds an entry expiring with
the default TTL. -/
theorem setAll_kv_cases (obj : List (String × String)) :
    ∀ (c : FastCacheState) (k' : String),
      (FastCache.setAll c obj).store.kv k' = c.store.kv k' ∨
      ∃ v', (FastCache.setAll c obj).store.kv k' = some ⟨v', some c.ttl⟩ := by
  induction obj with
  | nil => exact fun c k' => Or.inl rfl
  | cons kv t ih =>
    intro c k'
    rw [setAll_cons]
    rcases ih (FastCache.set c kv.1 kv.2 none) k' with h | ⟨v', h⟩
    · rw [h]
      by_cases hk : k' = kv.1
      · subst hk
        exact Or.inr ⟨kv.2, by simp [FastCache.set, updateFn, jsOrNat]⟩
      · exact Or.inl (by simp [FastCache.set, updateFn, hk])
    · exact Or.inr ⟨v', h⟩

/-- C9 counterexample: an explicit expiry argument of 0 is not used: because
the source combines it with the default through JavaScript or (under which 0
is falsy), the write carries the default TTL of 300 instead of the explicit
0. -/
theorem claim_C9_counterexample :
    (FastCache.set emptyState "k" "v" (some 0)).store.kv "k" = some ⟨"v", some 300⟩ ∧
    (FastCache.set emptyState "k" "v" (some 0)).store.kv "k" ≠ some ⟨"v", some 0⟩ :=
  ⟨by decide, by decide⟩

/-- C9 amended: every write through the scalar write paths carries an expiry,
never an un-expiring write: set uses a nonzero explicit expiry argument when
given one, and otherwise (no argument, or the falsy explicit 0) the
configured default TTL; setAll stamps every entry it writes with the default
TTL; the default TTL of an unconfigured facade is 300 seconds. -/
theorem claim_C9_expiring_writes (c : FastCacheState) (k v : String) (e : Nat)
    (obj : List (String × String)) (p : Option String) (st : StoreState)
    (he : e ≠ 0) :
    (FastCache.set c k v (some e)).store.kv k = some ⟨v, some e⟩ ∧
    (FastCache.set c k v none).store.kv k = some ⟨v, some c.ttl⟩ ∧
    (∀ k', (FastCache.setAll c obj).store.kv k' = c.store.kv k' ∨
      ∃ v', (FastCache.setAll c obj).store.kv k' = some ⟨v', some c.ttl⟩) ∧
    (FastCache.init ⟨p, none⟩ st).ttl = 300 := by
  refine ⟨?_, ?_, setAll_kv_cases obj c, rfl⟩ <;> simp [FastCache.set, updateFn, jsOrNat, he]

/-- C9 witness: the amended theorem instantiated with the explicit nonzero
expiry 7 and with no expiry argument on a default facade: the entries carry
expiry 7 and the default 300 respectively, and the unconfigured default TTL
is 300. -/
theorem claim_C9_witness :
    (7 : Nat) ≠ 0 ∧
    (FastCache.set emptyState "k" "v" (some 7)).store.kv "k" = some ⟨"v", some 7⟩ ∧
    (FastCache.set emptyState "k" "v" none).store.kv "k" = some ⟨"v", some 300⟩ ∧
    (FastCache.init ⟨none, none⟩ emptyStore).ttl = 300 := by
  have h := claim_C9_expiring_writes emptyState "k" "v" 7 [] none emptyStore (by decide)
  exact ⟨by decide, h.1, h.2.1, h.2.2.2⟩

--------------------------------------------------------------------------
-- Claims C5 and C6: the cacheKey deriver
--------------------------------------------------------------------------

/-- C5: for every serializable structured value, cacheKey returns the base64
encoding of the SHA-1 digest of the UTF-8 bytes of the canonical text
serialization of the value; the deriver is a pure function, so repeated
invocations on identical inputs are identical by construction, and the
second conjunct anchors the digest pipeline on a concrete value whose
fingerprint was computed independently. -/
theorem claim_C5_cacheKey_digest (v : JVal) :
    cacheKey (JSInput.val v) = Except.ok (base64Encode (sha1 (utf8Bytes (stringify v)))) ∧
    cacheKey (JSInput.val (JVal.num 1)) = Except.ok "NWoZK3kTsExUV00Ywo1G5jlUKKs=" := by
  exact ⟨rfl, rfl⟩

/-- C6 counterexample: on an unserializable input the source does not signal
a SerializationError: serialize swallows the stringify failure and returns
null, and the subsequent hash update on null throws a generic TypeError. -/
theorem claim_C6_counterexample :
    cacheKey JSInput.cyclic = Except.error (JSError.typeError updateNullMsg) ∧
    JSError.typeError updateNullMsg ≠ JSError.serializationError :=
  ⟨rfl, fun h => nomatch h⟩

/-- C6 amended: for every input whose canonicalization fails, cacheKey throws
an error (the TypeError of the hash update applied to the null placeholder)
rather than a SerializationError; the caller still never silently receives a
null or placeholder fingerprint, because no string is ever returned. -/
theorem claim_C6_unserializable_throws (o : JSInput) (h : serialize o = none) :
    cacheKey o = Except.error (JSError.typeError updateNullMsg) ∧
    ∀ s : String, cacheKey o ≠ Except.ok s := by
  constructor
  · simp [cacheKey, h, HashObj.update, Except.map]
  · intro s hs
    simp [cacheKey, h, HashObj.update, Except.map] at hs

/-- C6 witness: the amended theorem instantiated on a cyclic structure; the
hash update TypeError surfaces and no fingerprint string is produced. -/
theorem claim_C6_witness :
    serialize JSInput.cyclic = none ∧
    cacheKey JSInput.cyclic = Except.error (JSError.typeError updateNullMsg) ∧
    cacheKey JSInput.cyclic ≠ Except.ok "" := by
  have h := claim_C6_unserializable_throws JSInput.cyclic rfl
  exact ⟨rfl, h.1, h.2 ""⟩

/-- C10 witness: the theorem instantiated on a store holding the empty string
at key k and a computation resolving with 5; the computation runs, 5 is
returned, and the persisted entry replaces the empty one. -/
theorem claim_C10_witness :
    (emptyEntryState.store.kv "k" = some ⟨"", some 300⟩ ∧ exec5 () = Except.ok (JVal.num 5)) ∧
    (withCache emptyEntryState "k" exec5).result = Except.ok (JVal.num 5) ∧
    (withCache emptyEntryState "k" exec5).invocations = 1 ∧
    (runPending emptyEntryState (withCache emptyEntryState "k" exec5).pending [true]).store.kv "k"
      = some ⟨"5", some 300⟩ := by
  have h := claim_C10_empty_entry_miss emptyEntryState "k" exec5 (some 300) (JVal.num 5) rfl rfl
  exact ⟨⟨rfl, rfl⟩, h.1, h.2.1, by simpa using h.2.2.2⟩



